import Mathlib

/-!
Shallow embedding of the DD/PPO training loop of
`habitat_baselines/rl/ppo/ppo_trainer.py` (class `PPOTrainer`) and of the
run entry point `habitat_baselines/run.py`, together with proofs about the
straggler-cutoff predicate, the double-buffered collection loop, the decay
schedules, checkpointing and resume, the shared rollouts-done counter, the
evaluation precondition, the training-log divisor, and the metrics
extraction routine.

Machine floats of the Python source are modelled as rationals (ℚ); the
constants involved (0.25, sync fractions) are exactly representable, and
all comparisons in the modelled code are order comparisons that the
rational model reproduces faithfully.
-/

namespace PPOTrainer

/-- `PPOTrainer.SHORT_ROLLOUT_THRESHOLD: float = 0.25` (ppo_trainer.py line 78). -/
def SHORT_ROLLOUT_THRESHOLD : ℚ := 1 / 4

/-- The configuration fields read by `should_end_early`:
`config.habitat_baselines.rl.ppo.num_steps`,
`config.habitat_baselines.rl.ddppo.sync_frac`,
`torch.distributed.get_world_size()`, and the trainer's `_is_distributed`
flag. -/
structure DistribConfig where
  is_distributed : Bool
  num_steps : ℕ
  sync_frac : ℚ
  world_size : ℕ

/-- `PPOTrainer.should_end_early` (ppo_trainer.py lines 703-715):

```
if not self._is_distributed:
    return False
return (
    rollout_step
    >= self.config.habitat_baselines.rl.ppo.num_steps
    * self.SHORT_ROLLOUT_THRESHOLD
) and int(self.num_rollouts_done_store.get("num_done")) >= (
    self.config.habitat_baselines.rl.ddppo.sync_frac
    * torch.distributed.get_world_size()
)
```

`num_done` is the current value of the shared rollouts-done store. -/
def should_end_early (cfg : DistribConfig) (num_done : ℕ) (rollout_step : ℕ) : Bool :=
  if !cfg.is_distributed then
    false
  else
    ((cfg.num_steps : ℚ) * SHORT_ROLLOUT_THRESHOLD ≤ (rollout_step : ℚ))
      && (cfg.sync_frac * (cfg.world_size : ℚ) ≤ (num_done : ℚ))

/-- The environment-slot slice of buffer half `buffer_index` in
`PPOTrainer._compute_actions_and_step_envs` (ppo_trainer.py lines 433-438):
`slice(int(buffer_index * num_envs / self._nbuffers),
int((buffer_index + 1) * num_envs / self._nbuffers))`.
Returned as the pair (start, stop). -/
def computeActionsEnvSlice (buffer_index num_envs nbuffers : ℕ) : ℕ × ℕ :=
  (buffer_index * num_envs / nbuffers, (buffer_index + 1) * num_envs / nbuffers)

/-- The environment-slot slice of buffer half `buffer_index` in
`PPOTrainer._collect_environment_result` (ppo_trainer.py lines 492-497);
textually the same computation as in `_compute_actions_and_step_envs`. -/
def collectResultEnvSlice (buffer_index num_envs nbuffers : ℕ) : ℕ × ℕ :=
  (buffer_index * num_envs / nbuffers, (buffer_index + 1) * num_envs / nbuffers)

/-- Slot `slot` lies in the half-open range `[s.1, s.2)` of slice `s`. -/
def inSlice (s : ℕ × ℕ) (slot : ℕ) : Prop :=
  s.1 ≤ slot ∧ slot < s.2

instance (s : ℕ × ℕ) (slot : ℕ) : Decidable (inSlice s slot) := by
  unfold inSlice; infer_instance

/-- Effect of `PPOTrainer._init_train` on the shared rollouts-done store
(ppo_trainer.py lines 237-240): when distributed, every worker executes
`self.num_rollouts_done_store.set("num_done", "0")`. -/
def initTrainNumDone (is_distributed : Bool) (store : ℕ) : ℕ :=
  if is_distributed then 0 else store

/-- Effect of `PPOTrainer._coalesce_post_step` on the shared rollouts-done
store (ppo_trainer.py lines 627-628):
`if self._is_distributed and rank0_only(): self.num_rollouts_done_store.set("num_done", "0")`.
`rank0_only()` holds exactly for the worker of rank 0. -/
def coalescePostStepNumDone (is_distributed : Bool) (rank : ℕ) (store : ℕ) : ℕ :=
  if is_distributed && rank == 0 then 0 else store

/-- One observable event of the train collection loop: submission of the
actions for one buffer half (`_compute_actions_and_step_envs`, whose body
calls `self.envs.async_step_at` for every slot of that half's range) or
collection of the environment results for one buffer half
(`_collect_environment_result`, whose body calls `self.envs.wait_step_at`
for every slot of that half's range). -/
inductive RolloutEv where
  | submit (buffer_index : ℕ)
  | collect (buffer_index : ℕ)
deriving DecidableEq, Repr

/-- The buffer half an event refers to. -/
def RolloutEv.half : RolloutEv → ℕ
  | .submit b => b
  | .collect b => b

/-- The events of one iteration of the inner
`for buffer_index in range(self._nbuffers)` loop body for a single
`buffer_index` (ppo_trainer.py lines 827-841): collect the environment
result for that half, then — unless this is the last step — submit the next
actions for the same half. -/
def innerBlock (is_last : Bool) (buffer_index : ℕ) : List RolloutEv :=
  RolloutEv.collect buffer_index ::
    (if is_last then [] else [RolloutEv.submit buffer_index])

/-- The `for step in range(num_steps)` loop of `PPOTrainer.train`
(ppo_trainer.py lines 821-844) as the sequence of submit/collect events it
performs.  `fuel` is the number of loop iterations the range still allows
(`num_steps - step`), `step` the current iteration index.  Each iteration
computes `is_last_step = self.should_end_early(step + 1) or (step + 1) ==
ppo_cfg.num_steps` (lines 822-825); `cutoff (step+1)` stands for the value
of `should_end_early(step + 1)`, left abstract because it reads the shared
done-counter.  After the inner loop over buffer halves, `if is_last_step:
break` (lines 843-844). -/
def rolloutLoopAux (nbuffers num_steps : ℕ) (cutoff : ℕ → Bool) :
    ℕ → ℕ → List RolloutEv
  | 0, _ => []
  | fuel + 1, step =>
    let is_last := cutoff (step + 1) || (step + 1 == num_steps)
    ((List.range nbuffers).flatMap (innerBlock is_last))
      ++ (if is_last then []
          else rolloutLoopAux nbuffers num_steps cutoff fuel (step + 1))

/-- The full collection phase of one `train` iteration (ppo_trainer.py
lines 817-844): first `for buffer_index in range(self._nbuffers):
self._compute_actions_and_step_envs(buffer_index)` (lines 818-819), then
the step loop. -/
def trainRolloutTrace (nbuffers num_steps : ℕ) (cutoff : ℕ → Bool) :
    List RolloutEv :=
  ((List.range nbuffers).map RolloutEv.submit)
    ++ rolloutLoopAux nbuffers num_steps cutoff num_steps 0

/-- Modelled from the spec: `BaseRLTrainer.percent_done` is declared in
`habitat_baselines/common/base_trainer.py`, which is not among the sources
here (only its caller `ppo_trainer.py` is); the spec states
"percent_done = num_steps_done / total_num_steps, clipped to [0,1]". -/
def percent_done (num_steps_done total_num_steps : ℕ) : ℚ :=
  min 1 (max 0 ((num_steps_done : ℚ) / (total_num_steps : ℚ)))

/-- The learning-rate factor function installed on the scheduler at
ppo_trainer.py lines 731-734:
`LambdaLR(optimizer=self.agent.optimizer, lr_lambda=lambda x: 1 - self.percent_done())`.
The scheduler passes its epoch count `x`; the lambda ignores it and reads
the current step counters instead. -/
def lr_lambda (_x : ℕ) (num_steps_done total_num_steps : ℕ) : ℚ :=
  1 - percent_done num_steps_done total_num_steps

/-- The clip-parameter decay assignment at ppo_trainer.py lines 775-778:
`self.agent.clip_param = ppo_cfg.clip_param * (1 - self.percent_done())`. -/
def clip_param_decay (clip_param : ℚ) (num_steps_done total_num_steps : ℕ) : ℚ :=
  clip_param * (1 - percent_done num_steps_done total_num_steps)

/-- The sequence of per-update decay values produced by a run of the train
loop: at each iteration the value `f num_steps_done` is computed from the
current counter, and `_coalesce_post_step` then advances the counter by
that update's (all-reduced) `count_steps_delta`
(`self.num_steps_done += count_steps_delta`, ppo_trainer.py line 630).
`s0` is the counter at the start of the run segment, `deltas` the list of
per-update step counts. -/
def decaySchedule (f : ℕ → ℚ) (s0 : ℕ) : List ℕ → List ℚ
  | [] => []
  | d :: rest => f s0 :: decaySchedule f (s0 + d) rest

/-- The clip-parameter values set at the top of successive train-loop
iterations (ppo_trainer.py lines 775-778), as a function of the starting
counter and the per-update step deltas. -/
def clipSchedule (clip_param : ℚ) (total_num_steps s0 : ℕ) (deltas : List ℕ) :
    List ℚ :=
  decaySchedule (fun s => clip_param_decay clip_param s total_num_steps) s0 deltas

/-- The learning-rate factors applied by successive `lr_scheduler.step()`
calls (ppo_trainer.py lines 853-854; the step call precedes that
iteration's `_coalesce_post_step`, so it reads the counter before the
delta of the same update is added), as a function of the starting counter
and the per-update step deltas.  The scheduler's epoch argument is
irrelevant because `lr_lambda` ignores it. -/
def lrSchedule (total_num_steps s0 : ℕ) (deltas : List ℕ) : List ℚ :=
  decaySchedule (fun s => lr_lambda 0 s total_num_steps) s0 deltas

/-- A file-system write action performed by checkpointing code.
`torch.save(obj, path)` opens `path` itself and serializes into it in
place, which is `direct path`; an atomic temp-then-promote save would be a
`writeTemp tmp` followed by a `rename tmp dst`. -/
inductive FsOp where
  | direct (path : String)
  | writeTemp (path : String)
  | rename (src dst : String)
deriving DecidableEq, Repr

/-- `true` exactly for a `direct` in-place write. -/
def FsOp.isDirect : FsOp → Bool
  | .direct _ => true
  | _ => false

/-- `PPOTrainer.save_checkpoint` (ppo_trainer.py lines 346-377) as the
sequence of file-system writes it performs: after assembling the
checkpoint dict, it runs
`torch.save(checkpoint, os.path.join(self.config.habitat_baselines.checkpoint_folder, file_name))`
(lines 366-371) and then
`torch.save(checkpoint, os.path.join(self.config.habitat_baselines.checkpoint_folder, "latest.pth"))`
(lines 372-377). -/
def save_checkpoint (checkpoint_folder file_name : String) : List FsOp :=
  [FsOp.direct (checkpoint_folder ++ "/" ++ file_name),
   FsOp.direct (checkpoint_folder ++ "/" ++ "latest.pth")]

/-- An operation sequence contains an atomic temp-then-promote save: some
write goes to a temporary location which is then renamed onto a
destination. -/
def atomicSave (ops : List FsOp) : Prop :=
  ∃ tmp dst, FsOp.writeTemp tmp ∈ ops ∧ FsOp.rename tmp dst ∈ ops

/-- The mutable training-loop state that the resume machinery of
`PPOTrainer.train` snapshots and restores: the trainer counters
`num_steps_done`, `num_updates_done`, `env_time`, `pth_time`,
`_last_checkpoint_percent`, the loop locals `count_checkpoints` and
`prev_time` (cumulative wall-clock seconds of prior segments), the
running per-environment episode statistics and the sliding
statistics window `window_episode_stats` (a dict from stat name to a
bounded deque of per-environment totals, modelled as lists). -/
structure TrainLoopState where
  env_time : ℚ
  pth_time : ℚ
  count_checkpoints : ℕ
  num_steps_done : ℕ
  num_updates_done : ℕ
  last_checkpoint_percent : ℚ
  prev_time : ℚ
  running_episode_stats : List (String × ℚ)
  window_episode_stats : List (String × List ℚ)
deriving DecidableEq, Repr

/-- The `requeue_stats` dict attached to the resume state. -/
structure RequeueStats where
  env_time : ℚ
  pth_time : ℚ
  count_checkpoints : ℕ
  num_steps_done : ℕ
  num_updates_done : ℕ
  last_checkpoint_percent : ℚ
  prev_time : ℚ
  running_episode_stats : List (String × ℚ)
  window_episode_stats : List (String × List ℚ)
deriving DecidableEq, Repr

/-- The `requeue_stats` dict built before `save_resume_state`
(ppo_trainer.py lines 781-791): every counter is stored as-is and
`prev_time=(time.time() - self.t_start) + prev_time` stores the elapsed
wall-clock of the current segment (`elapsed`) plus the carried-over total
of the prior segments. -/
def mkRequeueStats (s : TrainLoopState) (elapsed : ℚ) : RequeueStats :=
  { env_time := s.env_time
    pth_time := s.pth_time
    count_checkpoints := s.count_checkpoints
    num_steps_done := s.num_steps_done
    num_updates_done := s.num_updates_done
    last_checkpoint_percent := s.last_checkpoint_percent
    prev_time := elapsed + s.prev_time
    running_episode_stats := s.running_episode_stats
    window_episode_stats := s.window_episode_stats }

/-- The restore branch of `PPOTrainer.train` (ppo_trainer.py lines
739-758): every counter is read back from `requeue_stats`, `prev_time =
requeue_stats["prev_time"]`, `self.running_episode_stats =
requeue_stats["running_episode_stats"]`, and
`self.window_episode_stats.update(requeue_stats["window_episode_stats"])`
(the window defaultdict is freshly created empty by `_init_train`, so the
update makes it equal to the saved dict). -/
def restoreRequeueStats (r : RequeueStats) : TrainLoopState :=
  { env_time := r.env_time
    pth_time := r.pth_time
    count_checkpoints := r.count_checkpoints
    num_steps_done := r.num_steps_done
    num_updates_done := r.num_updates_done
    last_checkpoint_percent := r.last_checkpoint_percent
    prev_time := r.prev_time
    running_episode_stats := r.running_episode_stats
    window_episode_stats := r.window_episode_stats }

/-- The externally observable stages of an evaluation run, in the order
`_eval_checkpoint` / `_eval_attacked_checkpoint` perform them:
`self.load_checkpoint(...)` (guarded by `eval.should_load_ckpt`),
`self._init_envs(config, is_eval=True)` which constructs the environments,
`self._setup_actor_critic_agent(ppo_cfg)`, then the episode loop. -/
inductive EvalStage where
  | loadCheckpoint
  | initEnvs
  | setupAgent
  | runEpisodes
deriving DecidableEq, Repr

/-- `PPOTrainer._eval_checkpoint` (ppo_trainer.py lines 879-1221) as the
pair (stages performed, outcome).  Its first statement (lines 895-896) is
`if self._is_distributed: raise RuntimeError("Evaluation does not support distributed mode")`,
before the checkpoint load (lines 899-906) and before
`self._init_envs(config, is_eval=True)` (line 944). -/
def evalCheckpoint (is_distributed should_load_ckpt : Bool) :
    List EvalStage × Except String Unit :=
  if is_distributed then
    ([], Except.error "Evaluation does not support distributed mode")
  else
    ((if should_load_ckpt then [EvalStage.loadCheckpoint] else [])
        ++ [EvalStage.initEnvs, EvalStage.setupAgent, EvalStage.runEpisodes],
      Except.ok ())

/-- `PPOTrainer._eval_attacked_checkpoint` (ppo_trainer.py lines
1223-1231 ff.) begins with the same guard
`if self._is_distributed: raise RuntimeError("Evaluation does not support distributed mode")`
(lines 1230-1231), before its checkpoint load (lines 1235-1242) and
environment construction. -/
def evalAttackedCheckpoint (is_distributed should_load_ckpt : Bool) :
    List EvalStage × Except String Unit :=
  if is_distributed then
    ([], Except.error "Evaluation does not support distributed mode")
  else
    ((if should_load_ckpt then [EvalStage.loadCheckpoint] else [])
        ++ [EvalStage.initEnvs, EvalStage.setupAgent, EvalStage.runEpisodes],
      Except.ok ())

/-- Modelled from the spec: the process exit code of a run.  `run.py`
(`main` → `run_exp` → `execute_exp` → `trainer.eval()`) installs no
exception handler, so per the spec "an assertion-style precondition
failure ... is fatal and exits non-zero" an escaping error terminates the
interpreter with a non-zero status, while "normal completion exits 0". -/
def processExitCode (outcome : Except String Unit) : ℕ :=
  match outcome with
  | .ok _ => 0
  | .error _ => 1

/-- The per-key window delta of `PPOTrainer._training_log`
(ppo_trainer.py lines 638-645): for a window deque `v` of per-environment
stat tensors, `(v[-1] - v[0]).sum().item() if len(v) > 1 else
v[0].sum().item()`.  A tensor snapshot is modelled as the list of its
per-environment entries; `.sum()` is its sum. -/
def windowDelta (v : List (List ℚ)) : ℚ :=
  if 1 < v.length then (v.getLastD []).sum - (v.headD []).sum
  else (v.headD []).sum

/-- ppo_trainer.py line 646: `deltas["count"] = max(deltas["count"], 1.0)`. -/
def clampedCount (count_delta : ℚ) : ℚ :=
  max count_delta 1

/-- The smoothed reward logged at ppo_trainer.py lines 648-652:
`deltas["reward"] / deltas["count"]` after the clamp of line 646. -/
def smoothedReward (reward_delta count_delta : ℚ) : ℚ :=
  reward_delta / clampedCount count_delta

/-- A smoothed per-metric average computed at ppo_trainer.py lines
656-660: `v / deltas["count"]` after the clamp of line 646. -/
def smoothedMetric (metric_delta count_delta : ℚ) : ℚ :=
  metric_delta / clampedCount count_delta

/-- `PPOTrainer.METRICS_BLACKLIST` (ppo_trainer.py line 392):
`{"top_down_map", "collisions.is_collision"}`. -/
def METRICS_BLACKLIST : List String :=
  ["top_down_map", "collisions.is_collision"]

/-- A key of a Python `info` dictionary: a string, or a value of any
non-string type (for which `isinstance(k, str)` fails and the entry is
skipped). -/
inductive InfoKey where
  | strKey (s : String)
  | nonStrKey
deriving DecidableEq, Repr

/-- An `info` dictionary as an ordered list of key/value entries, with the
value alternatives `_extract_scalars_from_info` distinguishes folded into
the entry constructors: a numeric value carrying its `np.size` (a
scalar-like value has size 1), a string (whose `np.size` is also 1), or a
nested dictionary. -/
inductive InfoDict where
  | nil
  | consNum (k : InfoKey) (size : ℕ) (x : ℚ) (rest : InfoDict)
  | consStr (k : InfoKey) (s : String) (rest : InfoDict)
  | consDict (k : InfoKey) (d : InfoDict) (rest : InfoDict)
deriving DecidableEq, Repr

/-- `PPOTrainer._extract_scalars_from_info` (ppo_trainer.py lines
394-419), returning the flat (key, value) pairs it produces in iteration
order.  For each entry: `if not isinstance(k, str) or k in
cls.METRICS_BLACKLIST: continue`; for a nested dict the recursive result
is re-keyed as `k + "." + subk` and filtered by
`k + "." + subk not in cls.METRICS_BLACKLIST` (the `isinstance(subk, str)`
conjunct always holds since recursive keys are strings); for other values
`elif np.size(v) == 1 and not isinstance(v, str): result[k] = float(v)` —
a string is excluded although its `np.size` is 1, a value of size ≠ 1 is
excluded.  `result` is a Python dict, so on duplicate keys the last write
wins; the pair list keeps every produced pair, which is immaterial to the
key/value properties proved below.  Every produced value is numeric
(`float(v)`), reflected in the ℚ value type. -/
def extractScalarsFromInfo : InfoDict → List (String × ℚ)
  | .nil => []
  | .consNum k size x rest =>
    (match k with
     | .nonStrKey => []
     | .strKey ks =>
       if ks ∈ METRICS_BLACKLIST then []
       else if size == 1 then [(ks, x)] else [])
      ++ extractScalarsFromInfo rest
  | .consStr k _ rest =>
    (match k with
     | .nonStrKey => []
     | .strKey ks =>
       if ks ∈ METRICS_BLACKLIST then []
       else [])
      ++ extractScalarsFromInfo rest
  | .consDict k d rest =>
    (match k with
     | .nonStrKey => []
     | .strKey ks =>
       if ks ∈ METRICS_BLACKLIST then []
       else
         ((extractScalarsFromInfo d).filter
            (fun p => decide (ks ++ "." ++ p.1 ∉ METRICS_BLACKLIST))).map
           (fun p => (ks ++ "." ++ p.1, p.2)))
      ++ extractScalarsFromInfo rest

/-- C1 (counterexample): the claim says the cutoff fires only when the
collected fraction strictly exceeds `SHORT_ROLLOUT_THRESHOLD`.  Concretely,
with `num_steps = 4`, world size 1, `sync_frac = 1` and one declared-done
worker, `should_end_early` already returns `true` at `rollout_step = 1`,
whose fraction `1/4` equals the threshold and does not exceed it. -/
theorem should_end_early_at_threshold_counterexample :
    should_end_early ⟨true, 4, 1, 1⟩ 1 1 = true
      ∧ ¬ (SHORT_ROLLOUT_THRESHOLD < ((1 : ℕ) : ℚ) / ((4 : ℕ) : ℚ)) := by
  constructor
  · rw [should_end_early]
    simp only [Bool.not_true, Bool.false_eq_true, if_false, Bool.and_eq_true,
      decide_eq_true_eq, SHORT_ROLLOUT_THRESHOLD]
    norm_num
  · rw [SHORT_ROLLOUT_THRESHOLD]
    norm_num

/-- C1 (amended): for positive `num_steps` and world size,
`should_end_early` returns `true` exactly when the trainer is distributed,
the collected fraction `rollout_step / num_steps` has reached (≥, not
strictly exceeded) `SHORT_ROLLOUT_THRESHOLD`, and the shared done-counter
divided by the world size has reached `sync_frac`; in particular the
straggler cutoff never fires while the collected fraction is strictly
below the threshold. -/
theorem should_end_early_iff (cfg : DistribConfig) (num_done rollout_step : ℕ)
    (hns : 0 < cfg.num_steps) (hws : 0 < cfg.world_size) :
    should_end_early cfg num_done rollout_step = true ↔
      (cfg.is_distributed = true
        ∧ SHORT_ROLLOUT_THRESHOLD ≤ (rollout_step : ℚ) / (cfg.num_steps : ℚ)
        ∧ cfg.sync_frac ≤ (num_done : ℚ) / (cfg.world_size : ℚ)) := by
  have hns' : (0 : ℚ) < (cfg.num_steps : ℚ) := by exact_mod_cast hns
  have hws' : (0 : ℚ) < (cfg.world_size : ℚ) := by exact_mod_cast hws
  rw [le_div_iff₀ hns', le_div_iff₀ hws']
  unfold should_end_early
  cases hd : cfg.is_distributed
  · simp
  · simp only [Bool.not_true, Bool.false_eq_true, if_false, Bool.and_eq_true,
      decide_eq_true_eq, true_and, mul_comm SHORT_ROLLOUT_THRESHOLD]

/-- Witness for `should_end_early_iff` at `num_steps = 4`, world size 2,
`sync_frac = 4/5`, two done workers, `rollout_step = 3`. -/
theorem should_end_early_iff_witness :
    (0 : ℕ) < 4 ∧ (0 : ℕ) < 2
    ∧ (should_end_early ⟨true, 4, 4/5, 2⟩ 2 3 = true ↔
        ((true : Bool) = true
          ∧ SHORT_ROLLOUT_THRESHOLD ≤ ((3 : ℕ) : ℚ) / ((4 : ℕ) : ℚ)
          ∧ (4/5 : ℚ) ≤ ((2 : ℕ) : ℚ) / ((2 : ℕ) : ℚ))) :=
  ⟨by decide, by decide,
    should_end_early_iff ⟨true, 4, 4/5, 2⟩ 2 3 (by decide) (by decide)⟩

/-- C4 (counterexample): the claim says `save_checkpoint` writes to a
temporary location and then promotes it.  At the concrete input
(checkpoint folder "checkpoints", file name "ckpt.0.pth") the performed
operation sequence contains no temp-write/promote pair at all. -/
theorem save_checkpoint_not_atomic_counterexample :
    ¬ atomicSave (save_checkpoint "checkpoints" "ckpt.0.pth") := by
  rintro ⟨tmp, dst, htmp, -⟩
  simp [save_checkpoint] at htmp

/-- C4 (amended): `save_checkpoint` performs only direct in-place writes —
one to the named checkpoint path and one to the `latest.pth` pointer — and
never a temporary-location write followed by a promotion, so the save is
not atomic: a crash during either write can leave a half-written file at
the final path. -/
theorem save_checkpoint_direct_writes (folder file_name : String) :
    (save_checkpoint folder file_name).all FsOp.isDirect = true
    ∧ FsOp.direct (folder ++ "/" ++ file_name) ∈ save_checkpoint folder file_name
    ∧ FsOp.direct (folder ++ "/" ++ "latest.pth") ∈ save_checkpoint folder file_name
    ∧ ¬ atomicSave (save_checkpoint folder file_name) := by
  refine ⟨rfl, ?_, ?_, ?_⟩
  · simp [save_checkpoint]
  · simp [save_checkpoint]
  · rintro ⟨tmp, dst, htmp, -⟩
    simp [save_checkpoint] at htmp

/-- C5: saving the resume state and restoring it is a lossless round-trip
of the training-loop state: every counter, the running statistics and the
statistics window come back exactly as saved, and `prev_time` carries the
wall-clock total forward as a sum across segments (`elapsed` added on each
save, never reset to 0), so that after two save/restore cycles the
restored `prev_time` is the sum of both segments' elapsed times plus the
original carry. -/
theorem resume_state_roundtrip (s : TrainLoopState) (e1 e2 : ℚ) :
    (restoreRequeueStats (mkRequeueStats s e1)).num_steps_done = s.num_steps_done
    ∧ (restoreRequeueStats (mkRequeueStats s e1)).num_updates_done = s.num_updates_done
    ∧ (restoreRequeueStats (mkRequeueStats s e1)).env_time = s.env_time
    ∧ (restoreRequeueStats (mkRequeueStats s e1)).pth_time = s.pth_time
    ∧ (restoreRequeueStats (mkRequeueStats s e1)).count_checkpoints = s.count_checkpoints
    ∧ (restoreRequeueStats (mkRequeueStats s e1)).last_checkpoint_percent
        = s.last_checkpoint_percent
    ∧ (restoreRequeueStats (mkRequeueStats s e1)).running_episode_stats
        = s.running_episode_stats
    ∧ (restoreRequeueStats (mkRequeueStats s e1)).window_episode_stats
        = s.window_episode_stats
    ∧ (restoreRequeueStats (mkRequeueStats s e1)).prev_time = e1 + s.prev_time
    ∧ (restoreRequeueStats (mkRequeueStats
          (restoreRequeueStats (mkRequeueStats s e1)) e2)).prev_time
        = e2 + (e1 + s.prev_time) :=
  ⟨rfl, rfl, rfl, rfl, rfl, rfl, rfl, rfl, rfl, rfl⟩

/-- C6: with two buffer halves (`_nbuffers = 2`), the slot slices computed
in `_compute_actions_and_step_envs` and `_collect_environment_result` are
identical, and for every environment count `N` they partition the slots:
each slot `0 ≤ slot < N` lies in exactly one of the two halves' ranges. -/
theorem double_buffer_slices_partition (num_envs slot : ℕ) (h : slot < num_envs) :
    computeActionsEnvSlice 0 num_envs 2 = collectResultEnvSlice 0 num_envs 2
    ∧ computeActionsEnvSlice 1 num_envs 2 = collectResultEnvSlice 1 num_envs 2
    ∧ ((inSlice (computeActionsEnvSlice 0 num_envs 2) slot
          ∧ ¬ inSlice (computeActionsEnvSlice 1 num_envs 2) slot)
        ∨ (¬ inSlice (computeActionsEnvSlice 0 num_envs 2) slot
          ∧ inSlice (computeActionsEnvSlice 1 num_envs 2) slot)) := by
  refine ⟨rfl, rfl, ?_⟩
  unfold computeActionsEnvSlice inSlice
  simp only []
  omega

/-- Witness for `double_buffer_slices_partition` at `N = 5`, `slot = 3`. -/
theorem double_buffer_slices_partition_witness :
    (3 : ℕ) < 5
    ∧ (computeActionsEnvSlice 0 5 2 = collectResultEnvSlice 0 5 2
      ∧ computeActionsEnvSlice 1 5 2 = collectResultEnvSlice 1 5 2
      ∧ ((inSlice (computeActionsEnvSlice 0 5 2) 3
            ∧ ¬ inSlice (computeActionsEnvSlice 1 5 2) 3)
          ∨ (¬ inSlice (computeActionsEnvSlice 0 5 2) 3
            ∧ inSlice (computeActionsEnvSlice 1 5 2) 3))) :=
  ⟨by decide, double_buffer_slices_partition 5 3 (by decide)⟩

/-- C7 (counterexample): the claim says every worker resets the shared
done-counter at the start of every collection phase.  Between phases the
reset happens in `_coalesce_post_step`, where a worker of rank 1 leaves
the store untouched (here at value 7, not 0). -/
theorem coalesce_reset_not_every_worker_counterexample :
    coalescePostStepNumDone true 1 7 = 7 ∧ (7 : ℕ) ≠ 0 :=
  ⟨rfl, by decide⟩

/-- The reset to 0 is absorbing for the per-rank `_coalesce_post_step`
effect: once the store is 0, applying the effect for any further ranks
keeps it 0. -/
theorem coalesce_foldl_zero (ranks : List ℕ) :
    List.foldl (fun s r => coalescePostStepNumDone true r s) 0 ranks = 0 := by
  induction ranks with
  | nil => rfl
  | cons r rs ih =>
    have hz : coalescePostStepNumDone true r 0 = 0 := by
      unfold coalescePostStepNumDone
      cases h : (r == 0) <;> simp [h]
    simpa [hz] using ih

/-- C7 (amended): before the first collection phase every worker resets
the shared done-counter to 0 in `_init_train`; before each subsequent
phase the reset in `_coalesce_post_step` is performed only by the rank-0
worker — but since setting to 0 is idempotent one worker suffices, and
after the workers (rank 0 among them) have run `_coalesce_post_step`, in
any order, the counter is 0, so every collection phase begins with the
counter at 0. -/
theorem num_done_zero_at_phase_start (store : ℕ) (ranks : List ℕ)
    (h0 : 0 ∈ ranks) :
    initTrainNumDone true store = 0
    ∧ List.foldl (fun s r => coalescePostStepNumDone true r s) store ranks = 0 := by
  refine ⟨rfl, ?_⟩
  induction ranks generalizing store with
  | nil => cases h0
  | cons r rs ih =>
    rcases List.mem_cons.mp h0 with h | h
    · have hr : coalescePostStepNumDone true r store = 0 := by
        unfold coalescePostStepNumDone
        simp [← h]
      simpa [List.foldl_cons, hr] using coalesce_foldl_zero rs
    · rw [List.foldl_cons]
      exact ih _ h

/-- Witness for `num_done_zero_at_phase_start` with store value 5 and
worker ranks `[1, 0, 2]`. -/
theorem num_done_zero_at_phase_start_witness :
    (0 : ℕ) ∈ [1, 0, 2]
    ∧ (initTrainNumDone true 5 = 0
      ∧ List.foldl (fun s r => coalescePostStepNumDone true r s) 5 [1, 0, 2] = 0) :=
  ⟨by decide, num_done_zero_at_phase_start 5 [1, 0, 2] (by decide)⟩

/-- C8: requesting checkpoint evaluation in distributed mode is a fatal
precondition failure: with `_is_distributed` true, both `_eval_checkpoint`
and `_eval_attacked_checkpoint` raise immediately — no stage runs, in
particular no checkpoint is loaded and no environment is constructed —
and the uncaught error terminates the process with a non-zero exit code. -/
theorem eval_distributed_fatal (should_load_ckpt : Bool) :
    evalCheckpoint true should_load_ckpt
        = ([], Except.error "Evaluation does not support distributed mode")
    ∧ evalAttackedCheckpoint true should_load_ckpt
        = ([], Except.error "Evaluation does not support distributed mode")
    ∧ EvalStage.loadCheckpoint ∉ (evalCheckpoint true should_load_ckpt).1
    ∧ EvalStage.initEnvs ∉ (evalCheckpoint true should_load_ckpt).1
    ∧ EvalStage.loadCheckpoint ∉ (evalAttackedCheckpoint true should_load_ckpt).1
    ∧ EvalStage.initEnvs ∉ (evalAttackedCheckpoint true should_load_ckpt).1
    ∧ processExitCode (evalCheckpoint true should_load_ckpt).2 = 1
    ∧ processExitCode (evalAttackedCheckpoint true should_load_ckpt).2 = 1
    ∧ processExitCode (evalCheckpoint true should_load_ckpt).2 ≠ 0 := by
  refine ⟨rfl, rfl, ?_, ?_, ?_, ?_, rfl, rfl, ?_⟩
  all_goals simp [evalCheckpoint, evalAttackedCheckpoint, processExitCode]

/-- The schedule of per-update decay values splits at any segment
boundary: processing the deltas `d1 ++ d2` from counter `s0` produces the
values of the first segment followed by the values of a segment restarted
from the counter `s0 + d1.sum`. -/
theorem decaySchedule_append (f : ℕ → ℚ) (s0 : ℕ) (d1 d2 : List ℕ) :
    decaySchedule f s0 (d1 ++ d2)
      = decaySchedule f s0 d1 ++ decaySchedule f (s0 + d1.sum) d2 := by
  induction d1 generalizing s0 with
  | nil => simp [decaySchedule]
  | cons d rest ih => simp [decaySchedule, ih, Nat.add_assoc]

/-- C3: the learning-rate factor and the clip parameter are pure functions
of the step counters through `percent_done` — in particular `lr_lambda`
ignores the scheduler's persisted epoch argument — so a run resumed from a
checkpoint after the first `d1` updates (its counter restored to
`s0 + d1.sum`) computes exactly the same decay values at every subsequent
update as the uninterrupted run over `d1 ++ d2`. -/
theorem decay_values_resume_invariant (clip_param : ℚ)
    (total_num_steps s0 : ℕ) (d1 d2 : List ℕ) (x y nsd : ℕ) :
    lr_lambda x nsd total_num_steps = lr_lambda y nsd total_num_steps
    ∧ clipSchedule clip_param total_num_steps s0 (d1 ++ d2)
        = clipSchedule clip_param total_num_steps s0 d1
          ++ clipSchedule clip_param total_num_steps (s0 + d1.sum) d2
    ∧ lrSchedule total_num_steps s0 (d1 ++ d2)
        = lrSchedule total_num_steps s0 d1
          ++ lrSchedule total_num_steps (s0 + d1.sum) d2 := by
  refine ⟨rfl, ?_, ?_⟩
  · unfold clipSchedule
    exact decaySchedule_append _ s0 d1 d2
  · unfold lrSchedule
    exact decaySchedule_append _ s0 d1 d2

/-- Filtering a concatenation of per-index blocks down to one half keeps
exactly the block of that half, provided every event of block `i` belongs
to half `i`. -/
theorem filter_half_flatMap_range (L : ℕ → List RolloutEv)
    (hL : ∀ i e, e ∈ L i → e.half = i) (n b : ℕ) :
    ((List.range n).flatMap L).filter (fun e => e.half == b)
      = if b < n then L b else [] := by
  induction n with
  | zero => simp
  | succ n ih =>
    rw [List.range_succ, List.flatMap_append, List.filter_append, ih,
      List.flatMap_singleton]
    by_cases hbn : b = n
    · subst hbn
      have hkeep : (L b).filter (fun e => e.half == b) = L b :=
        List.filter_eq_self.mpr fun e he => by
          simpa using hL b e he
      rw [hkeep]
      simp [Nat.lt_irrefl, Nat.lt_succ_self]
    · have hdrop : (L n).filter (fun e => e.half == b) = [] :=
        List.filter_eq_nil_iff.mpr fun e he => by
          have := hL n e he
          simp [this, hbn]
          omega
      rw [hdrop]
      by_cases hlt : b < n
      · simp [hlt, Nat.lt_succ_of_lt hlt]
      · have hlt' : ¬ b < n + 1 := by omega
        simp [hlt, hlt']

/-- Every event of `innerBlock is_last i` belongs to half `i`. -/
theorem innerBlock_half (is_last : Bool) (i : ℕ) (e : RolloutEv)
    (he : e ∈ innerBlock is_last i) : e.half = i := by
  cases is_last
  · simp [innerBlock] at he
    rcases he with rfl | rfl <;> rfl
  · simp [innerBlock] at he
    subst he
    rfl

/-- Restricted to one buffer half `b`, the step loop of `train` produces
`m` matched collect-then-submit pairs followed by one final collect (the
iteration on which the rollout ends — by early cutoff or by reaching
`num_steps` — collects but does not resubmit). -/
theorem rolloutLoopAux_filter_half (nbuffers num_steps : ℕ)
    (cutoff : ℕ → Bool) (b : ℕ) (hb : b < nbuffers) :
    ∀ fuel step, 0 < fuel → step + fuel = num_steps →
      ∃ m, (rolloutLoopAux nbuffers num_steps cutoff fuel step).filter
            (fun e => e.half == b)
          = (List.replicate m
              [RolloutEv.collect b, RolloutEv.submit b]).flatten
            ++ [RolloutEv.collect b] := by
  intro fuel
  induction fuel with
  | zero => intro step h0 _; omega
  | succ f ih =>
    intro step _ hsum
    rw [rolloutLoopAux]
    cases hil : (cutoff (step + 1) || (step + 1 == num_steps))
    · have hne : (step + 1 == num_steps) = false := by
        rcases Bool.or_eq_false_iff.mp hil with ⟨-, h⟩
        exact h
      have hf : 0 < f := by
        have : step + 1 ≠ num_steps := by simpa using hne
        omega
      obtain ⟨m, hm⟩ := ih (step + 1) hf (by omega)
      refine ⟨m + 1, ?_⟩
      simp only [hil, if_false, Bool.false_eq_true, List.filter_append, hm,
        filter_half_flatMap_range (innerBlock false) (innerBlock_half false),
        hb, if_pos]
      simp [innerBlock, List.replicate_succ]
    · refine ⟨0, ?_⟩
      simp only [hil, if_true, List.append_nil, List.filter_append,
        filter_half_flatMap_range (innerBlock true) (innerBlock_half true),
        hb, if_pos]
      simp [innerBlock]

/-- Shifting the leading submit into the pair list: one initial submit,
`m` collect/submit pairs and one final collect regroup into `m + 1`
submit-then-collect pairs. -/
theorem submit_collect_regroup (b m : ℕ) :
    RolloutEv.submit b ::
        ((List.replicate m [RolloutEv.collect b, RolloutEv.submit b]).flatten
          ++ [RolloutEv.collect b])
      = (List.replicate (m + 1)
          [RolloutEv.submit b, RolloutEv.collect b]).flatten := by
  induction m with
  | zero => rfl
  | succ m ih =>
    calc RolloutEv.submit b ::
          ((List.replicate (m + 1)
              [RolloutEv.collect b, RolloutEv.submit b]).flatten
            ++ [RolloutEv.collect b])
        = RolloutEv.submit b :: RolloutEv.collect b ::
            (RolloutEv.submit b ::
              ((List.replicate m
                  [RolloutEv.collect b, RolloutEv.submit b]).flatten
                ++ [RolloutEv.collect b])) := by
          simp [List.replicate_succ]
      _ = RolloutEv.submit b :: RolloutEv.collect b ::
            (List.replicate (m + 1)
              [RolloutEv.submit b, RolloutEv.collect b]).flatten := by
          rw [ih]
      _ = (List.replicate (m + 1 + 1)
            [RolloutEv.submit b, RolloutEv.collect b]).flatten := by
          rw [List.replicate_succ (n := m + 1)]
          rfl

/-- In a list made of `m` submit-then-collect pairs for half `b`, the
submit and collect events are counted `m` times each. -/
theorem replicate_pair_counts (b m : ℕ) :
    ((List.replicate m
        [RolloutEv.submit b, RolloutEv.collect b]).flatten).count
        (RolloutEv.submit b) = m
    ∧ ((List.replicate m
        [RolloutEv.submit b, RolloutEv.collect b]).flatten).count
        (RolloutEv.collect b) = m := by
  induction m with
  | zero => simp
  | succ m ih =>
    constructor <;>
      simp [List.replicate_succ, List.count_cons, ih.1, ih.2]

/-- C2: in the train collection loop, restricted to any buffer half `b`,
the submit/collect event trace is exactly an alternation of `m ≥ 1`
submit-then-collect pairs: every action submission (`async_step_at` over
that half's slots in `_compute_actions_and_step_envs`) is followed by
exactly one later collection (`wait_step_at` over the same slots in
`_collect_environment_result`), including at the boundary iteration where
the early-cutoff or is-last-step condition ends the rollout, and the
numbers of submissions and collections are equal. -/
theorem every_submit_collected (nbuffers num_steps : ℕ) (cutoff : ℕ → Bool)
    (b : ℕ) (hb : b < nbuffers) (hns : 0 < num_steps) :
    ∃ m, 0 < m
      ∧ (trainRolloutTrace nbuffers num_steps cutoff).filter
            (fun e => e.half == b)
          = (List.replicate m
              [RolloutEv.submit b, RolloutEv.collect b]).flatten
      ∧ ((trainRolloutTrace nbuffers num_steps cutoff).filter
            (fun e => e.half == b)).count (RolloutEv.submit b)
        = ((trainRolloutTrace nbuffers num_steps cutoff).filter
            (fun e => e.half == b)).count (RolloutEv.collect b) := by
  obtain ⟨m, hm⟩ :=
    rolloutLoopAux_filter_half nbuffers num_steps cutoff b hb num_steps 0
      hns (by omega)
  refine ⟨m + 1, Nat.succ_pos m, ?_, ?_⟩
  all_goals
    rw [trainRolloutTrace, List.filter_append, hm,
      List.map_eq_flatMap,
      filter_half_flatMap_range (fun i => [RolloutEv.submit i])
        (fun i e he => by rcases List.mem_singleton.mp he with rfl; rfl),
      if_pos hb, List.singleton_append, submit_collect_regroup]
  rw [(replicate_pair_counts b (m + 1)).1, (replicate_pair_counts b (m + 1)).2]

/-- Witness for `every_submit_collected` with two buffer halves, four
rollout steps, a cutoff that fires at step 3, for half 1. -/
theorem every_submit_collected_witness :
    (1 : ℕ) < 2 ∧ (0 : ℕ) < 4
    ∧ ∃ m, 0 < m
      ∧ (trainRolloutTrace 2 4 (fun s => s == 3)).filter
            (fun e => e.half == 1)
          = (List.replicate m
              [RolloutEv.submit 1, RolloutEv.collect 1]).flatten
      ∧ ((trainRolloutTrace 2 4 (fun s => s == 3)).filter
            (fun e => e.half == 1)).count (RolloutEv.submit 1)
        = ((trainRolloutTrace 2 4 (fun s => s == 3)).filter
            (fun e => e.half == 1)).count (RolloutEv.collect 1) :=
  ⟨by decide, by decide,
    every_submit_collected 2 4 (fun s => s == 3) 1 (by decide) (by decide)⟩

/-- C9: the episode-count divisor used by `_training_log` for the
smoothed window statistics is clamped to at least 1 before any division:
for every window content it is ≥ 1 (hence nonzero, so the smoothed reward
and per-metric averages are well-defined), and when no episode has
completed yet (count delta 0) it is exactly 1. -/
theorem training_log_divisor_clamped (w : List (List ℚ)) (c : ℚ) :
    1 ≤ clampedCount (windowDelta w)
    ∧ clampedCount (windowDelta w) ≠ 0
    ∧ 1 ≤ clampedCount c
    ∧ clampedCount c ≠ 0
    ∧ clampedCount 0 = 1
    ∧ smoothedReward 3 0 = 3
    ∧ smoothedMetric 2 0 = 2 := by
  refine ⟨le_max_right _ _, ?_, le_max_right _ _, ?_, ?_, ?_, ?_⟩
  · have h : (1 : ℚ) ≤ clampedCount (windowDelta w) := le_max_right _ _
    intro hz
    rw [hz] at h
    norm_num at h
  · have h : (1 : ℚ) ≤ clampedCount c := le_max_right _ _
    intro hz
    rw [hz] at h
    norm_num at h
  · unfold clampedCount
    norm_num
  · unfold smoothedReward clampedCount
    norm_num
  · unfold smoothedMetric clampedCount
    norm_num

/-- C10: every key produced by `_extract_scalars_from_info` is a string
not in `METRICS_BLACKLIST` — the dotted-path filter applies at the nesting
level where the path is joined, so no blacklisted path survives — every
value is numeric (the ℚ value type of the result reflects the `float(v)`
conversion), string-valued entries are skipped although a string's
`np.size` is 1, and non-scalar values (`np.size ≠ 1`) are skipped. -/
theorem extract_scalars_spec (d : InfoDict) :
    (∀ p ∈ extractScalarsFromInfo d, p.1 ∉ METRICS_BLACKLIST)
    ∧ (∀ (k : InfoKey) (s : String) (rest : InfoDict),
        extractScalarsFromInfo (InfoDict.consStr k s rest)
          = extractScalarsFromInfo rest)
    ∧ (∀ (ks : String) (size : ℕ) (x : ℚ) (rest : InfoDict), size ≠ 1 →
        extractScalarsFromInfo
            (InfoDict.consNum (InfoKey.strKey ks) size x rest)
          = extractScalarsFromInfo rest) := by
  refine ⟨?_, ?_, ?_⟩
  · induction d with
    | nil =>
      intro p hp
      simp [extractScalarsFromInfo] at hp
    | consNum k size x rest ih =>
      intro p hp
      cases k with
      | nonStrKey =>
        rw [extractScalarsFromInfo, List.nil_append] at hp
        exact ih p hp
      | strKey ks =>
        rw [extractScalarsFromInfo] at hp
        rcases List.mem_append.mp hp with h | h
        · split_ifs at h with hbl hsz
          · simp at h
          · rcases List.mem_singleton.mp h with rfl
            exact hbl
          · simp at h
        · exact ih p h
    | consStr k s rest ih =>
      intro p hp
      cases k with
      | nonStrKey =>
        rw [extractScalarsFromInfo, List.nil_append] at hp
        exact ih p hp
      | strKey ks =>
        rw [extractScalarsFromInfo] at hp
        rcases List.mem_append.mp hp with h | h
        · split_ifs at h <;> simp at h
        · exact ih p h
    | consDict k d rest ihd ihrest =>
      intro p hp
      cases k with
      | nonStrKey =>
        rw [extractScalarsFromInfo, List.nil_append] at hp
        exact ihrest p hp
      | strKey ks =>
        rw [extractScalarsFromInfo] at hp
        rcases List.mem_append.mp hp with h | h
        · split_ifs at h with hbl
          · simp at h
          · obtain ⟨q, hq, hqp⟩ := List.mem_map.mp h
            obtain ⟨-, hkeep⟩ := List.mem_filter.mp hq
            rw [← hqp]
            exact of_decide_eq_true hkeep
        · exact ihrest p h
  · intro k s rest
    cases k <;> simp [extractScalarsFromInfo]
  · intro ks size x rest hsz
    have hsz' : (size == 1) = false := by
      simpa using hsz
    simp [extractScalarsFromInfo, hsz']

/-- Witness for `extract_scalars_spec`: on the concrete info dictionary
{"spl": 1 (scalar), "collisions": {"is_collision": 1, "count": 3},
"scene": "van", "top_down_map": 1 (blacklisted), "hist": size-5 array}
the extraction keeps "spl" and "collisions.count" only; the key "spl" is
not blacklisted, a string entry contributes nothing, and a size-5 value
contributes nothing. -/
theorem extract_scalars_spec_witness :
    ("spl", (1 : ℚ)) ∈ extractScalarsFromInfo
        (InfoDict.consNum (InfoKey.strKey "spl") 1 1
          (InfoDict.consDict (InfoKey.strKey "collisions")
            (InfoDict.consNum (InfoKey.strKey "is_collision") 1 1
              (InfoDict.consNum (InfoKey.strKey "count") 1 3 InfoDict.nil))
            InfoDict.nil))
    ∧ ("spl" : String) ∉ METRICS_BLACKLIST
    ∧ extractScalarsFromInfo (InfoDict.consStr (InfoKey.strKey "scene") "van"
          InfoDict.nil)
        = extractScalarsFromInfo InfoDict.nil
    ∧ (5 : ℕ) ≠ 1
    ∧ extractScalarsFromInfo
          (InfoDict.consNum (InfoKey.strKey "hist") 5 2 InfoDict.nil)
        = extractScalarsFromInfo InfoDict.nil :=
  ⟨by decide,
    (extract_scalars_spec
        (InfoDict.consNum (InfoKey.strKey "spl") 1 1
          (InfoDict.consDict (InfoKey.strKey "collisions")
            (InfoDict.consNum (InfoKey.strKey "is_collision") 1 1
              (InfoDict.consNum (InfoKey.strKey "count") 1 3 InfoDict.nil))
            InfoDict.nil))).1
      ("spl", (1 : ℚ)) (by decide),
    (extract_scalars_spec InfoDict.nil).2.1 (InfoKey.strKey "scene") "van"
      InfoDict.nil,
    by decide,
    (extract_scalars_spec InfoDict.nil).2.2 "hist" 5 2 InfoDict.nil
      (by decide)⟩

end PPOTrainer
